import Mathlib

/-!
Verification development for the transitsync-routing repository.

The Python source is shallowly embedded: pure functions become Lean
functions, the network-bound collaborators (Nominatim, Metlink, OTP)
become explicit function parameters or oracle values, CPython floats are
modelled as real numbers (rationals where the values stay rational),
datetime instants are modelled as minutes on a linear timeline, and code
that can raise is modelled in an Except monad.
-/

/-! ## Python string primitives -/

/-- Bool-valued list prefix test (Python str.startswith on char lists). -/
def prefixOfChars : List Char → List Char → Bool
  | [], _ => true
  | _ :: _, [] => false
  | a :: as, b :: bs => a == b && prefixOfChars as bs

/-- Does the haystack contain the needle as a contiguous sublist
(Python substring membership test on char lists). -/
def containsChars (needle : List Char) : List Char → Bool
  | [] => needle.isEmpty
  | h :: t => prefixOfChars needle (h :: t) || containsChars needle t

/-- Python membership test for strings: needle occurs in hay. -/
def pyInStr (needle hay : String) : Bool :=
  containsChars needle.toList hay.toList

/-- Python str.startswith. -/
def pyStartsWith (pre s : String) : Bool :=
  prefixOfChars pre.toList s.toList

/-- Python truthiness of an optional string: None and the empty string
are falsy. -/
def pyFalsyOpt : Option String → Bool
  | none => true
  | some s => s = ""

/-- Whitespace for Python str.strip (the whitespace of the inputs in
use). -/
def pySpace (c : Char) : Bool := c == ' ' || c == '\t' || c == '\n' || c == '\r'

/-- ASCII lower-casing of one character (Python str.lower on the ASCII
inputs in use). -/
def pyLowerChar (c : Char) : Char :=
  if 'A' ≤ c ∧ c ≤ 'Z' then Char.ofNat (c.toNat + 32) else c

/-- ASCII upper-casing of one character (Python str.upper on the ASCII
inputs in use). -/
def pyUpperChar (c : Char) : Char :=
  if 'a' ≤ c ∧ c ≤ 'z' then Char.ofNat (c.toNat - 32) else c

/-- Python str.lower. -/
def pyLower (s : String) : String := String.mk (s.toList.map pyLowerChar)

/-- Python str.upper. -/
def pyUpper (s : String) : String := String.mk (s.toList.map pyUpperChar)

/-- Python str.strip: drop whitespace from both ends. -/
def pyStrip (s : String) : String :=
  String.mk (((s.toList.dropWhile pySpace).reverse.dropWhile pySpace).reverse)

/-! ## haversine_distance (route_planner.py lines 18-29, api_client.py
lines 12-23; the two copies are textually identical)

CPython floats are modelled as real numbers. math.atan2 is modelled by
the standard two-argument arctangent. -/

/-- math.radians: degrees to radians. -/
noncomputable def radians (x : ℝ) : ℝ := x * (Real.pi / 180)

/-- Two-argument arctangent with the quadrant conventions of math.atan2. -/
noncomputable def atan2 (y x : ℝ) : ℝ :=
  if 0 < x then Real.arctan (y / x)
  else if x < 0 ∧ 0 ≤ y then Real.arctan (y / x) + Real.pi
  else if x < 0 then Real.arctan (y / x) - Real.pi
  else if 0 < y then Real.pi / 2
  else if y < 0 then -(Real.pi / 2)
  else 0

/-- The intermediate value a of the haversine formula:
sin^2(dphi/2) + cos(phi1) * cos(phi2) * sin^2(dlambda/2). -/
noncomputable def haversine_a (lat1 lon1 lat2 lon2 : ℝ) : ℝ :=
  Real.sin (radians (lat2 - lat1) / 2) ^ 2 +
    Real.cos (radians lat1) * Real.cos (radians lat2) *
      Real.sin (radians (lon2 - lon1) / 2) ^ 2

/-- Great-circle distance on a sphere of radius 6371 km:
R * c with c = 2 * atan2(sqrt a, sqrt (1 - a)). -/
noncomputable def haversine_distance (lat1 lon1 lat2 lon2 : ℝ) : ℝ :=
  6371 * (2 * atan2 (Real.sqrt (haversine_a lat1 lon1 lat2 lon2))
    (Real.sqrt (1 - haversine_a lat1 lon1 lat2 lon2)))

/-! ## api_client.py: APIClient._normalize_address (lines 184-253) -/

/-- Python dict key lookup over an insertion-ordered association list. -/
def lookupKey {α : Type} (l : List (String × α)) (k : String) : Option α :=
  (l.find? (fun kv => kv.1 == k)).map (fun kv => kv.2)

/-- The wellington_locations dict of _normalize_address, in insertion
order (api_client.py lines 196-215). -/
def wellington_locations : List (String × String) := [
  ("CO246", "Cotton Building, Kelburn Campus, Victoria University, Wellington, New Zealand"),
  ("CO238", "Cotton Building, Kelburn Campus, Victoria University, Wellington, New Zealand"),
  ("CO219", "Cotton Building, Kelburn Campus, Victoria University, Wellington, New Zealand"),
  ("CO118", "Cotton Building, Kelburn Campus, Victoria University, Wellington, New Zealand"),
  ("MYLT101", "Murphy Building, Kelburn Campus, Victoria University, Wellington, New Zealand"),
  ("MYLT102", "Murphy Building, Kelburn Campus, Victoria University, Wellington, New Zealand"),
  ("MYLT103", "Murphy Building, Kelburn Campus, Victoria University, Wellington, New Zealand"),
  ("MY", "Murphy Building, Kelburn Campus, Victoria University, Wellington, New Zealand"),
  ("KK", "Kirk Building, Kelburn Campus, Victoria University, Wellington, New Zealand"),
  ("HM", "Hugh Mackenzie Building, Kelburn Campus, Victoria University, Wellington, New Zealand"),
  ("EA", "Easterfield Building, Kelburn Campus, Victoria University, Wellington, New Zealand"),
  ("von zedlitz", "von Zedlitz Building, Kelburn Campus, Victoria University, Wellington, New Zealand"),
  ("VZ", "von Zedlitz Building, Kelburn Campus, Victoria University, Wellington, New Zealand"),
  ("CO", "Cotton Building, Kelburn Campus, Victoria University, Wellington, New Zealand"),
  ("zoo", "Wellington Zoo, 200 Daniell Street, Newtown, Wellington 6021, New Zealand"),
  ("Wellington Zoo", "Wellington Zoo, 200 Daniell Street, Newtown, Wellington 6021, New Zealand"),
  ("VUW", "Victoria University of Wellington, Kelburn Parade, Wellington, New Zealand"),
  ("Kelburn Campus", "Victoria University of Wellington, Kelburn Parade, Wellington, New Zealand")]

/-- The buildings dict for VUW room codes (api_client.py lines 222-232). -/
def vuw_buildings : List (String × String) := [
  ("CO", "Cotton Building"),
  ("MY", "Murphy Building"),
  ("MYLT", "Murphy Lecture Theatre"),
  ("KK", "Kirk Building"),
  ("HM", "Hugh Mackenzie Building"),
  ("EA", "Easterfield Building"),
  ("VZ", "von Zedlitz Building"),
  ("MC", "Maclaurin Building"),
  ("AM", "Alan MacDiarmid Building")]

/-- Full match of the regex pattern for VUW room codes: 2 to 4 ASCII
letters followed by 1 to 3 digits; returns the letters group on match. -/
def vuw_code_letters (s : String) : Option String :=
  let cs := s.toList
  let letters := cs.takeWhile Char.isAlpha
  let rest := cs.drop letters.length
  if (2 ≤ letters.length ∧ letters.length ≤ 4 ∧ 1 ≤ rest.length ∧ rest.length ≤ 3) ∧
      rest.all Char.isDigit = true
  then some (String.mk letters) else none

/-- APIClient._normalize_address: strips the address, expands VUW room
codes, expands known Wellington locations (exact dict-key match first,
then first substring match in insertion order), and appends a
Wellington, New Zealand context when no location detail is present. -/
def _normalize_address (address : String) : String :=
  if address = "" then ""
  else
    let n0 := pyStrip address
    let n1 :=
      match vuw_code_letters n0 with
      | some letters =>
        match lookupKey vuw_buildings (pyUpper letters) with
        | some bname => bname ++ ", Kelburn Campus, Victoria University, Wellington, New Zealand"
        | none => n0
      | none =>
        match lookupKey wellington_locations n0 with
        | some full => full
        | none =>
          match wellington_locations.find? (fun kv => pyInStr (pyLower kv.1) (pyLower n0)) with
          | some kv => kv.2
          | none => n0
    if !(pyInStr "wellington" (pyLower n1)) && !(pyInStr "new zealand" (pyLower n1)) &&
        !(["street", "road", "avenue", "drive"].any (fun w => pyInStr w (pyLower n1)))
    then n1 ++ ", Wellington, New Zealand" else n1

/-! ## api_client.py: APIClient.geocode_address (lines 255-363)

The mutable client is modelled as an explicit state (the geocode cache
and the offline flag); the single Nominatim HTTP request a call can
issue is modelled by an oracle value consumed by that call, and each
result carries the number of network requests issued (0 or 1). -/

/-- Outcome of the one Nominatim request a geocode call can issue:
non-200 status, a 200 response whose parsed JSON list is given (each
item reduced to its float lat/lon pair), or a raised exception. -/
inductive NetResult
  | httpError
  | jsonData (data : List (ℚ × ℚ))
  | exn
deriving DecidableEq

structure APIClientState where
  geocode_cache : List (String × ℚ × ℚ)
  offline_mode : Bool
deriving DecidableEq

def cache_lookup (cache : List (String × ℚ × ℚ)) (k : String) : Option (ℚ × ℚ) :=
  (cache.find? (fun e => e.1 == k)).map (fun e => e.2)

def cache_insert (cache : List (String × ℚ × ℚ)) (k : String) (v : ℚ × ℚ) :
    List (String × ℚ × ℚ) :=
  (k, v) :: cache

/-- The offline_geocode_data dict (api_client.py lines 61-85), in
insertion order. -/
def offline_geocode_data : List (String × ℚ × ℚ) := [
  ("wellington zoo", -41.3186, 174.7824),
  ("wellington zoo, 200 daniell street, newtown, wellington 6021, new zealand", -41.3186, 174.7824),
  ("victoria university", -41.2901, 174.7682),
  ("victoria university of wellington, kelburn parade, wellington, new zealand", -41.2901, 174.7682),
  ("kelburn campus", -41.2901, 174.7682),
  ("kelburn campus, victoria university, wellington, new zealand", -41.2901, 174.7682),
  ("cotton building", -41.2900, 174.7686),
  ("murphy building", -41.2896, 174.7677),
  ("cuba street", -41.2944, 174.7748),
  ("cuba street, wellington, new zealand", -41.2944, 174.7748),
  ("willis street", -41.2874, 174.7746),
  ("willis street, wellington, new zealand", -41.2874, 174.7746),
  ("lambton quay", -41.2836, 174.7757),
  ("lambton quay, wellington, new zealand", -41.2836, 174.7757),
  ("wellington railway station", -41.2790, 174.7851),
  ("wellington station", -41.2790, 174.7851),
  ("123 the terrace, wellington", -41.2820, 174.7730),
  ("the terrace, wellington", -41.2820, 174.7730),
  ("te papa museum", -41.2903, 174.7819),
  ("te papa museum, wellington, new zealand", -41.2903, 174.7819),
  ("wellington botanic garden", -41.2825, 174.7669),
  ("wellington botanic garden, wellington, new zealand", -41.2825, 174.7669)]

def zoo_coords : ℚ × ℚ := (-41.3186, 174.7824)
def vuw_coords : ℚ × ℚ := (-41.2901, 174.7682)
def cotton_coords : ℚ × ℚ := (-41.2900, 174.7686)
def murphy_coords : ℚ × ℚ := (-41.2896, 174.7677)
def cuba_coords : ℚ × ℚ := (-41.2944, 174.7748)

/-- Offline-mode branch of geocode_address (lines 273-317): direct
match, then partial match (either containment direction), then keyword
fallbacks; every hit is cached, but the final Wellington-city-centre
fallback (line 317) returns without caching. No network request. -/
def offline_geocode (st : APIClientState) (normalized : String) :
    Option (ℚ × ℚ) × APIClientState × Nat :=
  match lookupKey offline_geocode_data (pyLower normalized) with
  | some coords =>
      (some coords,
        { st with geocode_cache := cache_insert st.geocode_cache normalized coords }, 0)
  | none =>
    match offline_geocode_data.find?
        (fun kv => pyInStr kv.1 (pyLower normalized) || pyInStr (pyLower normalized) kv.1) with
    | some kv =>
        (some kv.2,
          { st with geocode_cache := cache_insert st.geocode_cache normalized kv.2 }, 0)
    | none =>
      if pyInStr "zoo" (pyLower normalized) then
        (some zoo_coords,
          { st with geocode_cache := cache_insert st.geocode_cache normalized zoo_coords }, 0)
      else if ["victoria", "university", "vuw", "kelburn campus"].any
          (fun k => pyInStr k (pyLower normalized)) then
        (some vuw_coords,
          { st with geocode_cache := cache_insert st.geocode_cache normalized vuw_coords }, 0)
      else if pyInStr "cotton" (pyLower normalized) then
        (some cotton_coords,
          { st with geocode_cache := cache_insert st.geocode_cache normalized cotton_coords }, 0)
      else if pyInStr "murphy" (pyLower normalized) then
        (some murphy_coords,
          { st with geocode_cache := cache_insert st.geocode_cache normalized murphy_coords }, 0)
      else if pyInStr "cuba" (pyLower normalized) then
        (some cuba_coords,
          { st with geocode_cache := cache_insert st.geocode_cache normalized cuba_coords }, 0)
      else (some (-41.2865, 174.7762), st, 0)

/-- Online branch of geocode_address (lines 319-363): one HTTP request;
non-200 returns None uncached; an empty result list goes through the
popular-location fallbacks (cached when hit, otherwise None uncached); a
non-empty list yields and caches the first entry; an exception falls
back to a partial match against the offline data (cached) else None. -/
def online_geocode (st : APIClientState) (normalized : String) (resp : NetResult) :
    Option (ℚ × ℚ) × APIClientState × Nat :=
  match resp with
  | .httpError => (none, st, 1)
  | .jsonData [] =>
    if pyInStr "wellington zoo" (pyLower normalized) then
      (some zoo_coords,
        { st with geocode_cache := cache_insert st.geocode_cache normalized zoo_coords }, 1)
    else if ["victoria university", "vuw", "kelburn campus"].any
        (fun k => pyInStr k (pyLower normalized)) then
      (some vuw_coords,
        { st with geocode_cache := cache_insert st.geocode_cache normalized vuw_coords }, 1)
    else if pyInStr "cotton building" (pyLower normalized) then
      (some cotton_coords,
        { st with geocode_cache := cache_insert st.geocode_cache normalized cotton_coords }, 1)
    else if pyInStr "murphy" (pyLower normalized) then
      (some murphy_coords,
        { st with geocode_cache := cache_insert st.geocode_cache normalized murphy_coords }, 1)
    else (none, st, 1)
  | .jsonData (c :: _) =>
      (some c, { st with geocode_cache := cache_insert st.geocode_cache normalized c }, 1)
  | .exn =>
    match offline_geocode_data.find?
        (fun kv => pyInStr kv.1 (pyLower normalized) || pyInStr (pyLower normalized) kv.1) with
    | some kv =>
        (some kv.2,
          { st with geocode_cache := cache_insert st.geocode_cache normalized kv.2 }, 1)
    | none => (none, st, 1)

/-- APIClient.geocode_address: empty address short-circuits, the cache
is consulted on the normalized address, then the offline or online
branch runs. -/
def geocode_address (st : APIClientState) (address : String) (resp : NetResult) :
    Option (ℚ × ℚ) × APIClientState × Nat :=
  if address = "" then (none, st, 0)
  else
    match cache_lookup st.geocode_cache (_normalize_address address) with
    | some coords => (some coords, st, 0)
    | none =>
      if st.offline_mode then offline_geocode st (_normalize_address address)
      else online_geocode st (_normalize_address address) resp


/-! ## route_planner.py (the revision under src): data model

calendar_event.py defines CalendarEvent with attributes summary,
location, start_time, end_time, description; route_planner.py reads
exactly these attributes of its event arguments. Instants are minutes
on a linear timeline (rationals, as CPython floats of finite value);
durations computed by the planner are real numbers. -/

structure CalendarEvent where
  summary : String
  location : Option String
  start_time : Option ℚ
  end_time : Option ℚ
  description : String
deriving DecidableEq

/-- class Stop (route_planner.py lines 8-16). -/
structure Stop where
  stop_id : String
  name : String
  lat : ℚ
  lon : ℚ
deriving DecidableEq

/-- A Python value holding either the isoformat text of a computed
datetime instant or a raw string taken verbatim from a prediction. -/
inductive TimeVal
  | iso (t : ℝ)
  | raw (s : String)

/-- The route_info dict built by plan_route_between_events. The
departure_stop and arrival_stop keys are None in the walking branch;
the mode key is present (value walking) only in the walking branch. -/
structure RouteInfoDict where
  from_event : String
  to_event : String
  from_location : String
  to_location : String
  from_geocoded : ℚ × ℚ
  to_geocoded : ℚ × ℚ
  departure_stop : Option Stop
  arrival_stop : Option Stop
  predicted_departure : TimeVal
  estimated_travel_time_minutes : ℝ
  estimated_arrival_time : TimeVal
  mode : Option String

/-! ## route_planner.py: plan_route_between_events (lines 215-428)

The network collaborators (self.geocode_address, self.find_nearest_stop,
self.get_stop_predictions) and datetime.fromisoformat are passed as
function parameters; datetime.now() is the parameter now. A prediction
item is modelled by the optional string its expected_departure_time key
yields. The function returns the route (or None) together with the two
event objects as they stand on return, so mutation is observable. -/

/-- Lines 232-253: buffer_minutes from the #fixed / #flexible tags of
the destination event (description first, then summary overrides). The
companion is_fixed flag is computed by the source but never read
afterwards. -/
def buffer_minutes_for (event2 : CalendarEvent) : ℚ :=
  let b1 : ℚ :=
    if event2.description != "" then
      if pyInStr "#fixed" (pyLower event2.description) then 20
      else if pyInStr "#flexible" (pyLower event2.description) then 10
      else 15
    else 15
  if pyInStr "#fixed" (pyLower event2.summary) then 20
  else if pyInStr "#flexible" (pyLower event2.summary) then 10
  else b1

/-- Lines 255-264: back-fill of an empty-string location from a lab or
comp summary (only applies when location is the empty string, which the
earlier guard has already turned into an early return). -/
def infer_location (e : CalendarEvent) : CalendarEvent :=
  if e.location = some "" ∧
      (pyInStr "lab" (pyLower e.summary) || pyInStr "comp" (pyLower e.summary)) then
    { e with location := some "Cotton Building, Kelburn Campus, Victoria University, Wellington" }
  else e

/-- Lines 266-428: the body after the location guards and back-fill.
Events are no longer written past this point. -/
noncomputable def plan_route_core
    (geocode : String → Option (ℚ × ℚ))
    (find_nearest_stop : ℚ → ℚ → Option Stop)
    (get_stop_predictions : String → Option (List (Option String)))
    (parse_iso : String → Option ℚ)
    (now : ℚ) (buffer_minutes : ℚ)
    (e1 e2 : CalendarEvent) : Option RouteInfoDict :=
  match geocode (e1.location.getD "") with
  | none => none
  | some (lat1, lon1) =>
    match geocode (e2.location.getD "") with
    | none => none
    | some (lat2, lon2) =>
      match find_nearest_stop lat1 lon1 with
      | none => none
      | some departure_stop =>
        match find_nearest_stop lat2 lon2 with
        | none => none
        | some arrival_stop =>
          if haversine_distance lat1 lon1 lat2 lon2 < 1 then
            -- lines 294-347: walking event
            some { from_event := e1.summary
                   to_event := e2.summary
                   from_location := e1.location.getD ""
                   to_location := e2.location.getD ""
                   from_geocoded := (lat1, lon1)
                   to_geocoded := (lat2, lon2)
                   departure_stop := none
                   arrival_stop := none
                   predicted_departure :=
                     match e2.start_time, e1.end_time with
                     | some t2, _ =>
                         .iso ((t2 : ℝ) - haversine_distance lat1 lon1 lat2 lon2 / 5 * 60 -
                           (buffer_minutes : ℝ))
                     | none, some t1e => .iso (t1e : ℝ)
                     | none, none => .iso (now : ℝ)
                   estimated_travel_time_minutes :=
                     haversine_distance lat1 lon1 lat2 lon2 / 5 * 60
                   estimated_arrival_time :=
                     match e2.start_time, e1.end_time with
                     | some t2, _ => .iso ((t2 : ℝ) - (buffer_minutes : ℝ))
                     | none, some t1e =>
                         .iso ((t1e : ℝ) + haversine_distance lat1 lon1 lat2 lon2 / 5 * 60)
                     | none, none =>
                         .iso ((now : ℝ) + haversine_distance lat1 lon1 lat2 lon2 / 5 * 60)
                   mode := some "walking" }
          else
            -- lines 349-428: transit estimate between the two stops
            some { from_event := e1.summary
                   to_event := e2.summary
                   from_location := e1.location.getD ""
                   to_location := e2.location.getD ""
                   from_geocoded := (lat1, lon1)
                   to_geocoded := (lat2, lon2)
                   departure_stop := some departure_stop
                   arrival_stop := some arrival_stop
                   predicted_departure :=
                     match e2.start_time, e1.end_time with
                     | some t2, _ =>
                         .iso ((t2 : ℝ) -
                           haversine_distance departure_stop.lat departure_stop.lon
                             arrival_stop.lat arrival_stop.lon / 30 * 60 -
                           (buffer_minutes : ℝ))
                     | none, some t1e => .iso (t1e : ℝ)
                     | none, none =>
                       match get_stop_predictions departure_stop.stop_id with
                       | some (some s :: _) =>
                         match parse_iso s with
                         | some _ => .raw s
                         | none => .iso (now : ℝ)
                       | some (none :: _) => .iso (now : ℝ)
                       | _ => .iso (now : ℝ)
                   estimated_travel_time_minutes :=
                     haversine_distance departure_stop.lat departure_stop.lon
                       arrival_stop.lat arrival_stop.lon / 30 * 60
                   estimated_arrival_time :=
                     match e2.start_time, e1.end_time with
                     | some t2, _ => .iso ((t2 : ℝ) - (buffer_minutes : ℝ))
                     | none, some t1e =>
                         .iso ((t1e : ℝ) +
                           haversine_distance departure_stop.lat departure_stop.lon
                             arrival_stop.lat arrival_stop.lon / 30 * 60)
                     | none, none =>
                       match get_stop_predictions departure_stop.stop_id with
                       | some (some s :: _) =>
                         match parse_iso s with
                         | some tp =>
                             .iso ((tp : ℝ) +
                               haversine_distance departure_stop.lat departure_stop.lon
                                 arrival_stop.lat arrival_stop.lon / 30 * 60)
                         | none =>
                             .iso ((now : ℝ) +
                               haversine_distance departure_stop.lat departure_stop.lon
                                 arrival_stop.lat arrival_stop.lon / 30 * 60)
                       | _ =>
                           .iso ((now : ℝ) +
                             haversine_distance departure_stop.lat departure_stop.lon
                               arrival_stop.lat arrival_stop.lon / 30 * 60)
                   mode := none }

/-- RoutePlanner.plan_route_between_events: the missing-location guards
(lines 224-230), the buffer computation, the (dead) location back-fill,
then the pure core. Returns the route option and the two events as they
are on return. -/
noncomputable def plan_route_between_events
    (geocode : String → Option (ℚ × ℚ))
    (find_nearest_stop : ℚ → ℚ → Option Stop)
    (get_stop_predictions : String → Option (List (Option String)))
    (parse_iso : String → Option ℚ)
    (now : ℚ)
    (event1 event2 : CalendarEvent) :
    Option RouteInfoDict × CalendarEvent × CalendarEvent :=
  if pyFalsyOpt event1.location then (none, event1, event2)
  else if pyFalsyOpt event2.location then (none, event1, event2)
  else
    (plan_route_core geocode find_nearest_stop get_stop_predictions parse_iso now
        (buffer_minutes_for event2) (infer_location event1) (infer_location event2),
      infer_location event1, infer_location event2)


/-! ## route_planner.py: process_events (lines 449-578) -/

/-- Stands for datetime.datetime.min, the sort key of events without a
start time: an instant below every event time in use. -/
def datetime_min : ℚ := -(10 ^ 9)

def py_sort_key (e : CalendarEvent) : ℚ := e.start_time.getD datetime_min

/-- Stable insertion into a list sorted ascending by py_sort_key (an
element goes after existing elements with an equal key, as with Python
sorted). -/
def insert_by_key (x : CalendarEvent) : List CalendarEvent → List CalendarEvent
  | [] => [x]
  | y :: ys =>
    if py_sort_key y ≤ py_sort_key x then y :: insert_by_key x ys
    else x :: y :: ys

/-- Python sorted(events, key=lambda e: e.start_time or datetime.min). -/
def py_sorted (l : List CalendarEvent) : List CalendarEvent :=
  l.foldl (fun acc x => insert_by_key x acc) []

/-- Lines 463-466: the bot-created-event test of the filter. -/
def bot_created (e : CalendarEvent) : Bool :=
  pyStartsWith "Transit:" e.summary || pyStartsWith "Walking:" e.summary ||
    pyStartsWith "[TransitBot]" e.summary

/-- Lines 463-466: keep events that are not bot-created and have a
truthy location with non-blank stripped text. -/
def passes_bot_filter (e : CalendarEvent) : Bool :=
  !bot_created e && !pyFalsyOpt e.location && (pyStrip (e.location.getD "") != "")

/-- Line 478: the location comparison key, location.strip().lower(). -/
def norm_loc (e : CalendarEvent) : String := pyLower (pyStrip (e.location.getD ""))

/-- Lines 476-479: the loop that builds unique_events by comparing each
event with the last KEPT event. -/
def unique_tail (last : CalendarEvent) : List CalendarEvent → List CalendarEvent
  | [] => []
  | x :: xs =>
    if norm_loc x ≠ norm_loc last then x :: unique_tail x xs
    else unique_tail last xs

/-- Lines 475-479: unique_events = [sorted_events[0]] extended by the
comparison loop (empty input gives the empty list; the caller only
reaches this code with a non-empty list). -/
def unique_events : List CalendarEvent → List CalendarEvent
  | [] => []
  | e :: rest => e :: unique_tail e rest

/-- Run collapse described by the spec: drop an event exactly when its
normalized location equals that of its immediate predecessor in the
input, keeping the first event of each run. -/
def collapse_tail (prev : CalendarEvent) : List CalendarEvent → List CalendarEvent
  | [] => []
  | x :: xs =>
    if norm_loc x = norm_loc prev then collapse_tail x xs
    else x :: collapse_tail x xs

/-- The collapse of consecutive same-location runs, in the words of the
spec (keep the first of each run); compared against unique_events. -/
def collapse_runs : List CalendarEvent → List CalendarEvent
  | [] => []
  | e :: rest => e :: collapse_tail e rest

/-- Exceptions process_events can raise. -/
inductive PyErr
  | attributeError (name : String)
  | typeError (msg : String)
deriving DecidableEq

/-- route_planner.py reads config.HOME_ADDRESS (lines 460 and 485), but
the config module of this repository (src/transitsync_routing/config.py)
defines only the Config class (DEBUG, PORT, TIMEZONE, OTP_URL, OSM_URL)
and no HOME_ADDRESS attribute, so the lookup raises AttributeError. -/
def config_HOME_ADDRESS : Option String := none

/-- Lines 488-496 and 574: route_planner.py calls CalendarEvent with a
single dict argument, but calendar_event.py defines
CalendarEvent.__init__(self, summary, location, start_time=None,
end_time=None, description=""), so the call raises TypeError before any
field is assigned. -/
def CalendarEvent_from_dict : Except PyErr CalendarEvent :=
  .error (.typeError "CalendarEvent() missing 1 required positional argument: location")

/-- Lines 504-507: routes between consecutive unique events, keeping
the non-None results in order. -/
def consecutive_routes (plan_route : CalendarEvent → CalendarEvent → Option RouteInfoDict) :
    List CalendarEvent → List RouteInfoDict
  | a :: b :: rest =>
    (match plan_route a b with
     | some r => [r]
     | none => []) ++ consecutive_routes plan_route (b :: rest)
  | _ => []

/-- RoutePlanner.process_events. The home back-fill loop (lines
458-460) and the home-anchor comparison (line 485) both read
config.HOME_ADDRESS; since the module has no such attribute, either
site raises AttributeError, so with a non-empty filtered list the
function always throws there and the remaining code (home anchor,
per-pair routing and the CalendarEvent conversions, which would
themselves raise TypeError) is unreachable. plan_route stands for the
bound self.plan_route_between_events. -/
def process_events
    (plan_route : CalendarEvent → CalendarEvent → Option RouteInfoDict)
    (events : List CalendarEvent) : Except PyErr (List CalendarEvent) := do
  if events.isEmpty then return []
  let events2 ← events.mapM (fun e =>
    if pyFalsyOpt e.location || (pyStrip (e.location.getD "") == "") then
      match config_HOME_ADDRESS with
      | some h => pure { e with location := some h }
      | none => throw (PyErr.attributeError "HOME_ADDRESS")
    else pure e)
  let filtered := events2.filter passes_bot_filter
  if filtered.isEmpty then return []
  let sorted_events := py_sorted filtered
  let unique_evts := unique_events sorted_events
  match config_HOME_ADDRESS with
  | none => throw (PyErr.attributeError "HOME_ADDRESS")
  | some home =>
    match unique_evts with
    | [] => return []
    | first_event :: _ =>
      let home_routes : List RouteInfoDict ←
        if (pyLower (pyStrip (first_event.location.getD "")) != pyLower (pyStrip home)) &&
            !(["home", "house", "apartment", "flat"].any
              (fun w => pyInStr w (pyLower (first_event.location.getD "")))) then do
          let home_event ← CalendarEvent_from_dict
          pure (match plan_route home_event first_event with
                | some r => [r]
                | none => [])
        else pure []
      let routes := home_routes ++ consecutive_routes plan_route unique_evts
      let out ← routes.mapM (fun _r => CalendarEvent_from_dict)
      return out

/-! ## event.py: Event.to_dict (lines 44-105)

Instants are minutes on a linear timeline; isoformat serialization of a
computed datetime is kept as the instant itself, a raw string carried
over unparsed is kept as a string. The constructor parses start_time
and end_time from the corresponding strings, so a successfully parsed
start is exactly start_time = some t. -/

inductive TimeText
  | iso (t : ℤ)
  | raw (s : String)
deriving DecidableEq

/-- A start or end entry of the output dict: either a dateTime value or
a date value, each with a timeZone label. -/
inductive TimeEntry
  | dateTime (v : TimeText) (timeZone : String)
  | date (s : String) (timeZone : String)
deriving DecidableEq

/-- class Event (event.py lines 4-41): the attribute surface to_dict
reads. -/
structure Event where
  id : Option String
  summary : String
  location : Option String
  description : String
  time_zone : String
  start_str : Option String
  end_str : Option String
  start_time : Option ℤ
  end_time : Option ℤ
deriving DecidableEq

/-- The dictionary to_dict returns; absent keys are none. -/
structure EventDict where
  summary : String
  start : Option TimeEntry
  end_entry : Option TimeEntry
  location : Option String
  description : Option String
  id : Option String
deriving DecidableEq

/-- Lines 85-90: the default end entry, start_time + 1 hour (60
minutes), used when neither end_time nor a truthy end_str exists. -/
def end_default (e : Event) : Option TimeEntry :=
  match e.start_time with
  | some t => some (TimeEntry.dateTime (TimeText.iso (t + 60)) e.time_zone)
  | none => none

/-- Event.to_dict. -/
def to_dict (e : Event) : EventDict :=
  { summary := if e.summary != "" then e.summary else "Untitled Event"
    start :=
      match e.start_time with
      | some t => some (TimeEntry.dateTime (TimeText.iso t) e.time_zone)
      | none =>
        match e.start_str with
        | some s =>
          if s != "" then
            if pyInStr "T" s then some (TimeEntry.dateTime (TimeText.raw s) e.time_zone)
            else some (TimeEntry.date s e.time_zone)
          else none
        | none => none
    end_entry :=
      match e.end_time with
      | some t => some (TimeEntry.dateTime (TimeText.iso t) e.time_zone)
      | none =>
        match e.end_str with
        | some s =>
          if s != "" then
            if pyInStr "T" s then some (TimeEntry.dateTime (TimeText.raw s) e.time_zone)
            else some (TimeEntry.date s e.time_zone)
          else end_default e
        | none => end_default e
    location :=
      match e.location with
      | some s => if s != "" then some s else none
      | none => none
    description := if e.description != "" then some e.description else none
    id :=
      match e.id with
      | some s => if s != "" then some s else none
      | none => none }

/-! ## api_client.py: the offline travel estimate of query_otp_graphql
(lines 449-513) -/

inductive LegMode
  | WALK
  | BUS
deriving DecidableEq

/-- The part of the mock GraphQL plan the claims are about: the leg
modes and the total travel time in minutes (the response wraps these as
one itinerary of duration travel_time_minutes * 60 seconds; the leg
timestamps and endpoint names filled in by _create_mock_leg are not
modelled). -/
structure OfflinePlan where
  leg_modes : List LegMode
  travel_time_minutes : ℝ

/-- Offline-mode travel estimate (api_client.py lines 453-495): the
from/to coordinates are read from the query variables; a missing or
zero coordinate is falsy in Python and keeps the 10-minute default
walking plan; otherwise the haversine distance decides: below 1.5 km a
single walking leg of distance * 12 minutes, otherwise walk + bus +
walk with min(5, d*2) + d*3 + min(5, d*2) minutes. -/
noncomputable def offline_travel_plan (from_lat from_lon to_lat to_lon : Option ℚ) :
    OfflinePlan :=
  match from_lat, from_lon, to_lat, to_lon with
  | some a, some b, some c, some d =>
    if a = 0 ∨ b = 0 ∨ c = 0 ∨ d = 0 then ⟨[.WALK], 10⟩
    else
      if haversine_distance a b c d < 1.5 then
        ⟨[.WALK], haversine_distance a b c d * 12⟩
      else
        ⟨[.WALK, .BUS, .WALK],
          min 5 (haversine_distance a b c d * 2) + haversine_distance a b c d * 3 +
            min 5 (haversine_distance a b c d * 2)⟩
  | _, _, _, _ => ⟨[.WALK], 10⟩

/-! ## Spec-modelled definitions for the OTP-backed planner

The RoutePlanner revision the tests and CLI exercise (with an
api_client attribute, is_suitable_event, and OTP itinerary parsing) is
not among the source files under src; only its tests and callers are.
The definitions below are modelled from the spec, as their doc comments
state. -/

structure SpecEvent where
  summary : String
  location : Option String
  start_time : Option ℝ
  end_time : Option ℝ

structure SpecLeg where
  mode : String
  startTime : ℝ
  endTime : ℝ
  from_name : String
  to_name : String

structure SpecItinerary where
  duration : ℝ
  legs : List SpecLeg

structure SpecRouteInfo where
  from_event : String
  to_event : String
  from_geocoded : ℝ × ℝ
  to_geocoded : ℝ × ℝ
  predictedDeparture : ℝ
  estimatedArrival : ℝ
  estimatedTravelTimeMinutes : ℝ
  isFallback : Bool
  legs : List SpecLeg

/-- Modelled from the spec: section 4.2 step 1, the target arrival
instant is the destination start if present, else the origin end, else
now. -/
def targetArrivalInstant (origin dest : SpecEvent) (now : ℝ) : ℝ :=
  dest.start_time.getD (origin.end_time.getD now)

/-- Modelled from the spec: section 4.3, the fallback estimator. Always
yields a RouteInfo: haversine distance decides walking (d * 12 minutes)
below 1.5 km versus transit-like (d * 3 + 10 minutes) at or above;
predictedDeparture = target - minutes, estimatedArrival = target, one
synthetic leg spanning the window, isFallback = true. -/
noncomputable def estimateRoute (origin dest : SpecEvent) (oc dc : ℝ × ℝ) (target : ℝ) :
    SpecRouteInfo :=
  { from_event := origin.summary
    to_event := dest.summary
    from_geocoded := oc
    to_geocoded := dc
    predictedDeparture :=
      target - (if haversine_distance oc.1 oc.2 dc.1 dc.2 < 1.5 then
        haversine_distance oc.1 oc.2 dc.1 dc.2 * 12
      else haversine_distance oc.1 oc.2 dc.1 dc.2 * 3 + 10)
    estimatedArrival := target
    estimatedTravelTimeMinutes :=
      if haversine_distance oc.1 oc.2 dc.1 dc.2 < 1.5 then
        haversine_distance oc.1 oc.2 dc.1 dc.2 * 12
      else haversine_distance oc.1 oc.2 dc.1 dc.2 * 3 + 10
    isFallback := true
    legs := [{ mode := if haversine_distance oc.1 oc.2 dc.1 dc.2 < 1.5 then "WALK" else "TRANSIT"
               startTime :=
                 target - (if haversine_distance oc.1 oc.2 dc.1 dc.2 < 1.5 then
                   haversine_distance oc.1 oc.2 dc.1 dc.2 * 12
                 else haversine_distance oc.1 oc.2 dc.1 dc.2 * 3 + 10)
               endTime := target
               from_name := origin.summary
               to_name := dest.summary }] }

/-- Modelled from the spec: section 4.2 step 5, response validation;
the response is usable when it holds at least one itinerary and the
first itinerary has at least one leg. -/
def chooseItinerary : Option (List SpecItinerary) → Option SpecItinerary
  | some (it :: _) => if it.legs.isEmpty then none else some it
  | _ => none

/-- Modelled from the spec: section 4.2, PlanRouteBetween. Empty or
missing locations return null; a geocoding failure returns null; an
unusable trip-planning response falls back to the estimator; a usable
one yields predictedDeparture from the first leg start, estimatedArrival
from the last leg end, minutes = duration / 60, isFallback = false. -/
noncomputable def planRouteBetween
    (geocode : String → Option (ℝ × ℝ))
    (planTrip : ℝ × ℝ → ℝ × ℝ → ℝ → Option (List SpecItinerary))
    (now : ℝ) (origin dest : SpecEvent) : Option SpecRouteInfo :=
  match origin.location, dest.location with
  | some lo, some ld =>
    if lo = "" ∨ ld = "" then none
    else
      match geocode lo, geocode ld with
      | some oc, some dc =>
        match chooseItinerary (planTrip oc dc (targetArrivalInstant origin dest now)) with
        | some it =>
          match it.legs with
          | leg1 :: rest =>
            some { from_event := origin.summary
                   to_event := dest.summary
                   from_geocoded := oc
                   to_geocoded := dc
                   predictedDeparture := leg1.startTime
                   estimatedArrival := ((leg1 :: rest).getLast (List.cons_ne_nil leg1 rest)).endTime
                   estimatedTravelTimeMinutes := it.duration / 60
                   isFallback := false
                   legs := leg1 :: rest }
          | [] => some (estimateRoute origin dest oc dc (targetArrivalInstant origin dest now))
        | none => some (estimateRoute origin dest oc dc (targetArrivalInstant origin dest now))
      | _, _ => none
  | _, _ => none

/-! ## Spec-modelled Event Filter -/

structure FilterEvent where
  summary : String
  location : Option String
  start_time : Option ℤ

def virtual_keywords : List String :=
  ["online", "virtual", "zoom", "meet.google", "teams", "webex", "skype", "phone"]

def self_markers : List String := ["Transit:", "Walking:", "[TransitBot]"]

def blank_location : Option String → Bool
  | none => true
  | some s => pyStrip s == ""

/-- Modelled from the spec: section 4.1, IsEligible(event, now). The
is_suitable_event method the tests call is not among the source files
under src. Rejects on blank location, a virtual-meeting substring in
the lowercased location, a self-generated marker in the summary, an
absent start time, or a start more than 30 days (43200 minutes) ahead
of now; a total Boolean function, so rejection cannot raise. -/
def isEligible (e : FilterEvent) (now : ℤ) : Bool :=
  !blank_location e.location &&
  !(virtual_keywords.any (fun k => pyInStr k (pyLower (e.location.getD "")))) &&
  !(self_markers.any (fun m => pyInStr m e.summary)) &&
  (match e.start_time with
   | some t => decide (t ≤ now + 43200)
   | none => false)

/-! ## Theorems for claim C6 -/

theorem haversine_a_self (a b : ℝ) : haversine_a a b a b = 0 := by
  simp [haversine_a, radians, sub_self]

theorem haversine_a_symm (a b c d : ℝ) :
    haversine_a a b c d = haversine_a c d a b := by
  have key : ∀ u v : ℝ,
      Real.sin ((u - v) * (Real.pi / 180) / 2) ^ 2 =
        Real.sin ((v - u) * (Real.pi / 180) / 2) ^ 2 := by
    intro u v
    have h : (u - v) * (Real.pi / 180) / 2 =
        -((v - u) * (Real.pi / 180) / 2) := by ring
    rw [h, Real.sin_neg, neg_sq]
  unfold haversine_a radians
  rw [key c a, key d b,
    mul_comm (Real.cos (a * (Real.pi / 180))) (Real.cos (c * (Real.pi / 180)))]

/-- C6: for all coordinate values, haversine_distance of a point to
itself is 0, and haversine_distance is symmetric under swapping the two
points. -/
theorem haversine_self_zero_and_symm (a b c d : ℝ) :
    haversine_distance a b a b = 0 ∧
      haversine_distance a b c d = haversine_distance c d a b := by
  constructor
  · unfold haversine_distance
    rw [haversine_a_self]
    norm_num [atan2]
  · unfold haversine_distance
    rw [haversine_a_symm]

/-- On a common longitude the haversine formula reduces to the sphere
radius times the latitude difference in radians (used to produce exact
distances at concrete coordinates). -/
theorem haversine_same_lon (phi L delta : ℝ)
    (h0 : 0 ≤ delta * (Real.pi / 180) / 2)
    (h1 : delta * (Real.pi / 180) / 2 < Real.pi / 2) :
    haversine_distance phi L (phi + delta) L = 6371 * (delta * (Real.pi / 180)) := by
  have hpi := Real.pi_pos
  have hsin : 0 ≤ Real.sin (delta * (Real.pi / 180) / 2) :=
    Real.sin_nonneg_of_nonneg_of_le_pi h0 (by linarith)
  have hcos : 0 < Real.cos (delta * (Real.pi / 180) / 2) :=
    Real.cos_pos_of_mem_Ioo ⟨by linarith, h1⟩
  have ha : haversine_a phi L (phi + delta) L =
      Real.sin (delta * (Real.pi / 180) / 2) ^ 2 := by
    unfold haversine_a radians
    rw [add_sub_cancel_left, sub_self]
    simp
  have h1s : 1 - Real.sin (delta * (Real.pi / 180) / 2) ^ 2 =
      Real.cos (delta * (Real.pi / 180) / 2) ^ 2 := by
    have := Real.sin_sq_add_cos_sq (delta * (Real.pi / 180) / 2); linarith
  unfold haversine_distance
  rw [ha, h1s, Real.sqrt_sq hsin, Real.sqrt_sq hcos.le]
  have hat : atan2 (Real.sin (delta * (Real.pi / 180) / 2))
      (Real.cos (delta * (Real.pi / 180) / 2)) = delta * (Real.pi / 180) / 2 := by
    unfold atan2
    rw [if_pos hcos, ← Real.tan_eq_sin_div_cos,
      Real.arctan_tan (by linarith) h1]
  rw [hat]; ring

/-! ## Theorems for claim C7 -/

theorem cache_lookup_insert (cache : List (String × ℚ × ℚ)) (k : String) (v : ℚ × ℚ) :
    cache_lookup (cache_insert cache k v) k = some v := by
  simp [cache_lookup, cache_insert]

theorem offline_geocode_cases (st : APIClientState) (n : String) :
    (∃ c, offline_geocode st n =
      (some c, { st with geocode_cache := cache_insert st.geocode_cache n c }, 0)) ∨
    (∃ c, offline_geocode st n = (some c, st, 0)) := by
  unfold offline_geocode
  split
  · exact Or.inl ⟨_, rfl⟩
  · split
    · exact Or.inl ⟨_, rfl⟩
    · split_ifs <;> first | exact Or.inl ⟨_, rfl⟩ | exact Or.inr ⟨_, rfl⟩

theorem online_geocode_cases (st : APIClientState) (n : String) (resp : NetResult) :
    (∃ c, online_geocode st n resp =
      (some c, { st with geocode_cache := cache_insert st.geocode_cache n c }, 1)) ∨
    online_geocode st n resp = (none, st, 1) := by
  unfold online_geocode
  split
  · exact Or.inr rfl
  · split_ifs <;> first | exact Or.inl ⟨_, rfl⟩ | exact Or.inr rfl
  · exact Or.inl ⟨_, rfl⟩
  · split
    · exact Or.inl ⟨_, rfl⟩
    · exact Or.inr rfl

/-- C7 (amended): once a geocode_address call returns coordinates, any
later call with the same address (hence the same normalized address)
returns the identical coordinates from the unchanged client state and
issues no further network request; any single call issues at most one
request. -/
theorem geocode_success_idempotent (st : APIClientState) (addr : String)
    (resp resp2 : NetResult) (c : ℚ × ℚ) (st2 : APIClientState) (k : ℕ)
    (h : geocode_address st addr resp = (some c, st2, k)) :
    geocode_address st2 addr resp2 = (some c, st2, 0) ∧ k ≤ 1 := by
  by_cases ha : addr = ""
  · unfold geocode_address at h
    rw [if_pos ha] at h
    simp [Prod.ext_iff] at h
  · unfold geocode_address at h ⊢
    rw [if_neg ha] at h ⊢
    rcases hcl : cache_lookup st.geocode_cache (_normalize_address addr) with _ | c0
    · rw [hcl] at h
      by_cases hoff : st.offline_mode
      · rw [if_pos hoff] at h
        rcases offline_geocode_cases st (_normalize_address addr) with ⟨c1, hc1⟩ | ⟨c1, hc1⟩
        · rw [hc1] at h
          simp only [Prod.mk.injEq, Option.some.injEq] at h
          obtain ⟨hc, hst, hk⟩ := h
          subst hc; subst hst; subst hk
          exact ⟨by simp [cache_lookup_insert], by norm_num⟩
        · rw [hc1] at h
          simp only [Prod.mk.injEq, Option.some.injEq] at h
          obtain ⟨hc, hst, hk⟩ := h
          subst hc; subst hst; subst hk
          constructor
          · simp only [hcl]
            rw [if_pos hoff, hc1]
          · norm_num
      · rw [if_neg hoff] at h
        rcases online_geocode_cases st (_normalize_address addr) resp with ⟨c1, hc1⟩ | hc1
        · rw [hc1] at h
          simp only [Prod.mk.injEq, Option.some.injEq] at h
          obtain ⟨hc, hst, hk⟩ := h
          subst hc; subst hst; subst hk
          exact ⟨by simp [cache_lookup_insert], by norm_num⟩
        · rw [hc1] at h
          simp [Prod.ext_iff] at h
    · rw [hcl] at h
      simp only [Prod.mk.injEq, Option.some.injEq] at h
      obtain ⟨hc, hst, hk⟩ := h
      subst hc; subst hst; subst hk
      exact ⟨by simp only [hcl], by norm_num⟩

/-- C7 (counterexample to the claim as stated): with the network oracle
failing on the first call (HTTP status not 200) and succeeding on the
second, two calls with the same address (same normalized address) issue
two network requests and return different results; the failed first
call is not cached, refuting at most one request per unique normalized
address within a process lifetime and a cache hit on every later call. -/
theorem geocode_failed_call_retries_network :
    (geocode_address ⟨[], false⟩ "Some Place" NetResult.httpError).1 = none ∧
    (geocode_address ⟨[], false⟩ "Some Place" NetResult.httpError).2.2 = 1 ∧
    (geocode_address (geocode_address ⟨[], false⟩ "Some Place" NetResult.httpError).2.1
        "Some Place" (NetResult.jsonData [(-41.1, 174.9)])).1 = some (-41.1, 174.9) ∧
    (geocode_address (geocode_address ⟨[], false⟩ "Some Place" NetResult.httpError).2.1
        "Some Place" (NetResult.jsonData [(-41.1, 174.9)])).2.2 = 1 :=
  ⟨rfl, rfl, rfl, rfl⟩

/-- C7 witness: a concrete successful offline call for zoo, then the
amended theorem applied at that call. -/
theorem geocode_success_idempotent_witness :
    geocode_address
      ⟨[("Wellington Zoo, 200 Daniell Street, Newtown, Wellington 6021, New Zealand",
          -41.3186, 174.7824)], true⟩ "zoo" NetResult.exn =
      (some (-41.3186, 174.7824),
        ⟨[("Wellington Zoo, 200 Daniell Street, Newtown, Wellington 6021, New Zealand",
            -41.3186, 174.7824)], true⟩, 0) ∧ (0 : ℕ) ≤ 1 :=
  geocode_success_idempotent ⟨[], true⟩ "zoo" NetResult.httpError NetResult.exn
    (-41.3186, 174.7824)
    ⟨[("Wellington Zoo, 200 Daniell Street, Newtown, Wellington 6021, New Zealand",
        -41.3186, 174.7824)], true⟩ 0 (by rfl)

/-! ## Theorems for claim C8 -/

theorem unique_tail_eq_collapse (xs : List CalendarEvent) :
    ∀ a b, norm_loc a = norm_loc b → unique_tail a xs = collapse_tail b xs := by
  induction xs with
  | nil => intro a b _; rfl
  | cons x t ih =>
    intro a b hab
    by_cases hx : norm_loc x = norm_loc b
    · have h1 : norm_loc x = norm_loc a := hx.trans hab.symm
      simp only [unique_tail, collapse_tail]
      rw [if_neg (not_not_intro h1), if_pos hx]
      exact ih a x h1.symm
    · have hxa : norm_loc x ≠ norm_loc a := fun hcon => hx (hcon.trans hab)
      simp only [unique_tail, collapse_tail]
      rw [if_pos hxa, if_neg hx, ih x x rfl]

theorem chain_unique_tail (xs : List CalendarEvent) :
    ∀ last, List.Chain' (fun a b => norm_loc a ≠ norm_loc b) (last :: unique_tail last xs) := by
  induction xs with
  | nil => intro last; simp [unique_tail]
  | cons x t ih =>
    intro last
    by_cases hx : norm_loc x ≠ norm_loc last
    · simp only [unique_tail, if_pos hx]
      exact List.chain'_cons.mpr ⟨Ne.symm hx, ih x⟩
    · simp only [unique_tail, if_neg hx]
      exact ih last

/-- C8: the unique_events loop of process_events collapses consecutive
events with equal normalized (stripped, lowercased) locations to the
first event of each run (it coincides with the run collapse described
by the spec), and consequently any two consecutive surviving events,
between which routes are then planned, have distinct normalized
locations. -/
theorem unique_events_spec (l : List CalendarEvent) :
    unique_events l = collapse_runs l ∧
      List.Chain' (fun a b => norm_loc a ≠ norm_loc b) (unique_events l) := by
  cases l with
  | nil => exact ⟨rfl, List.chain'_nil⟩
  | cons e rest =>
    constructor
    · simp only [unique_events, collapse_runs]
      rw [unique_tail_eq_collapse rest e e rfl]
    · simp only [unique_events]
      exact chain_unique_tail rest e

/-! ## Theorems for claims C5 and C9 -/

/-- C5: plan_route_between_events returns None whenever either event
has an empty location (None or the empty string), whatever the other
fields and collaborators; the embedding is a total function, so no
exception propagates. -/
theorem plan_route_missing_location
    (geocode : String → Option (ℚ × ℚ))
    (find_nearest_stop : ℚ → ℚ → Option Stop)
    (get_stop_predictions : String → Option (List (Option String)))
    (parse_iso : String → Option ℚ)
    (now : ℚ) (event1 event2 : CalendarEvent)
    (h : pyFalsyOpt event1.location = true ∨ pyFalsyOpt event2.location = true) :
    (plan_route_between_events geocode find_nearest_stop get_stop_predictions
      parse_iso now event1 event2).1 = none := by
  unfold plan_route_between_events
  rcases h with h | h
  · rw [if_pos h]
  · by_cases h1 : pyFalsyOpt event1.location = true
    · rw [if_pos h1]
    · rw [if_neg h1, if_pos h]

/-- C5 witness. -/
theorem plan_route_missing_location_witness :
    (plan_route_between_events (fun _ => none) (fun _ _ => none) (fun _ => none)
      (fun _ => none) 0 ⟨"Lab Session", none, some 540, some 600, ""⟩
      ⟨"Zoo Trip", some "Wellington Zoo", some 660, none, ""⟩).1 = none :=
  plan_route_missing_location _ _ _ _ _ _ _ (Or.inl (by decide))

theorem infer_location_id (e : CalendarEvent) (h : pyFalsyOpt e.location = false) :
    infer_location e = e := by
  unfold infer_location
  split
  · next hcond =>
    exfalso
    rw [hcond.1] at h
    simp [pyFalsyOpt] at h
  · rfl

/-- C9: with both locations non-empty, plan_route_between_events
returns the two event objects unchanged: the only assignments to event
fields sit in the back-fill branch guarded by location == the empty
string, which the empty-location guard has already turned into an early
return, so the back-fill never executes and no field is mutated. -/
theorem plan_route_preserves_events
    (geocode : String → Option (ℚ × ℚ))
    (find_nearest_stop : ℚ → ℚ → Option Stop)
    (get_stop_predictions : String → Option (List (Option String)))
    (parse_iso : String → Option ℚ)
    (now : ℚ) (event1 event2 : CalendarEvent)
    (h1 : pyFalsyOpt event1.location = false)
    (h2 : pyFalsyOpt event2.location = false) :
    (plan_route_between_events geocode find_nearest_stop get_stop_predictions
      parse_iso now event1 event2).2 = (event1, event2) := by
  unfold plan_route_between_events
  rw [if_neg (by simp [h1]), if_neg (by simp [h2])]
  rw [infer_location_id event1 h1, infer_location_id event2 h2]

/-- C9 witness. -/
theorem plan_route_preserves_events_witness :
    (plan_route_between_events (fun _ => none) (fun _ _ => none) (fun _ => none)
      (fun _ => none) 0 ⟨"Lecture", some "Kelburn Campus", some 540, some 600, ""⟩
      ⟨"Zoo Trip", some "Wellington Zoo", some 660, none, ""⟩).2 =
    (⟨"Lecture", some "Kelburn Campus", some 540, some 600, ""⟩,
      ⟨"Zoo Trip", some "Wellington Zoo", some 660, none, ""⟩) :=
  plan_route_preserves_events _ _ _ _ _ _ _ (by decide) (by decide)

/-! ## Theorem for claim C2 -/

/-- C2 (code bug): process_events raises on a perfectly ordinary input.
With one located event the filtered list is non-empty, so line 485
evaluates config.HOME_ADDRESS, an attribute the config module does not
define, and the call raises AttributeError instead of returning a list;
the claim (and the spec) say no exception surfaces through the public
contract. -/
theorem process_events_raises_attribute_error :
    process_events (fun _ _ => none)
      [⟨"Lunch", some "Wellington Zoo", some 720, some 780, ""⟩] =
      .error (PyErr.attributeError "HOME_ADDRESS") := by
  rfl

/-! ## Theorem for claim C10 -/

/-- C10: when the start string parsed (start_time is present) and there
is neither a parsed end_time nor a raw end string, to_dict emits an end
entry whose dateTime is the start instant plus exactly one hour. -/
theorem to_dict_default_end_one_hour (e : Event) (t : ℤ)
    (hs : e.start_time = some t) (he : e.end_time = none) (hes : e.end_str = none) :
    (to_dict e).end_entry =
      some (TimeEntry.dateTime (TimeText.iso (t + 60)) e.time_zone) := by
  unfold to_dict end_default
  simp [hs, he, hes]

/-- C10 witness. -/
theorem to_dict_default_end_one_hour_witness :
    (to_dict ⟨none, "Meeting", some "Room 1", "", "Pacific/Auckland",
      some "2025-01-01T09:00:00", none, some 540, none⟩).end_entry =
      some (TimeEntry.dateTime (TimeText.iso 600) "Pacific/Auckland") := by
  have h := to_dict_default_end_one_hour
    ⟨none, "Meeting", some "Room 1", "", "Pacific/Auckland",
      some "2025-01-01T09:00:00", none, some 540, none⟩ 540 rfl rfl rfl
  simpa using h

/-! ## Theorem for claim C4 -/

/-- C4: the event filter rejects (returns false, and being a total
Boolean function cannot raise) whenever the location is blank, the
lowercased location contains a virtual-meeting keyword, the summary
contains a self-generated marker, the start time is absent, or the
start lies more than 30 days (43200 minutes) past now. -/
theorem is_eligible_rejects (e : FilterEvent) (now : ℤ)
    (h : blank_location e.location = true ∨
      (∃ k ∈ virtual_keywords, pyInStr k (pyLower (e.location.getD "")) = true) ∨
      (∃ m ∈ self_markers, pyInStr m e.summary = true) ∨
      e.start_time = none ∨
      (∃ t, e.start_time = some t ∧ now + 43200 < t)) :
    isEligible e now = false := by
  unfold isEligible
  rcases h with h | h | h | h | h
  · simp [h]
  · obtain ⟨k, hk, hin⟩ := h
    have hany : (virtual_keywords.any fun k => pyInStr k (pyLower (e.location.getD ""))) = true :=
      List.any_eq_true.mpr ⟨k, hk, hin⟩
    simp [hany]
  · obtain ⟨m, hm, hin⟩ := h
    have hany : (self_markers.any fun m => pyInStr m e.summary) = true :=
      List.any_eq_true.mpr ⟨m, hm, hin⟩
    simp [hany]
  · simp [h]
  · obtain ⟨t, ht, hlt⟩ := h
    simp [ht, decide_eq_false (not_le.mpr hlt)]

/-- C4 witness: a Zoom event is rejected. -/
theorem is_eligible_rejects_witness :
    isEligible ⟨"Standup", some "Zoom link", some 0⟩ 0 = false :=
  is_eligible_rejects _ _ (Or.inr (Or.inl ⟨"zoom", by decide, by decide⟩))

/-! ## Theorem for claim C1 -/

/-- C1: when both locations geocode and the trip-planning step yields
nothing usable (null, an empty itinerary list, or a first itinerary
without legs), PlanRouteBetween still returns a RouteInfo, built by the
fallback estimator, with isFallback = true and estimatedArrival equal
to the target arrival instant (destination start if present, else
origin end, else now) exactly. -/
theorem planRouteBetween_fallback_preserves_target
    (geocode : String → Option (ℝ × ℝ))
    (planTrip : ℝ × ℝ → ℝ × ℝ → ℝ → Option (List SpecItinerary))
    (now : ℝ) (origin dest : SpecEvent) (lo ld : String) (oc dc : ℝ × ℝ)
    (hlo : origin.location = some lo) (hld : dest.location = some ld)
    (hne : ¬(lo = "" ∨ ld = ""))
    (hgo : geocode lo = some oc) (hgd : geocode ld = some dc)
    (htrip : chooseItinerary (planTrip oc dc (targetArrivalInstant origin dest now)) = none) :
    ∃ r, planRouteBetween geocode planTrip now origin dest = some r ∧
      r.isFallback = true ∧ r.estimatedArrival = targetArrivalInstant origin dest now := by
  refine ⟨estimateRoute origin dest oc dc (targetArrivalInstant origin dest now), ?_, rfl, rfl⟩
  simp only [planRouteBetween, hlo, hld]
  rw [if_neg hne]
  simp only [hgo, hgd, htrip]

/-- C1 witness: concrete events and collaborators with a null trip
planner; the estimated arrival is the destination start, 540. -/
theorem planRouteBetween_fallback_preserves_target_witness :
    ∃ r, planRouteBetween (fun _ => some (1, 2)) (fun _ _ _ => none) 0
        ⟨"Origin", some "Lambton Quay", some 480, some 500⟩
        ⟨"Dest", some "Wellington Zoo", some 540, none⟩ = some r ∧
      r.isFallback = true ∧ r.estimatedArrival = 540 := by
  have h := planRouteBetween_fallback_preserves_target (fun _ => some (1, 2))
    (fun _ _ _ => none) 0 ⟨"Origin", some "Lambton Quay", some 480, some 500⟩
    ⟨"Dest", some "Wellington Zoo", some 540, none⟩ "Lambton Quay" "Wellington Zoo"
    (1, 2) (1, 2) rfl rfl (by simp) rfl rfl rfl
  simpa [targetArrivalInstant] using h

/-! ## Theorems for claim C3 -/

/-- One arcminute of latitude at fixed longitude: exactly
6371 * pi / 10800 kilometres, a concrete distance in [1.5, 2.5). -/
theorem haversine_one_arcminute :
    haversine_distance 1 174 (1 + 1/60) 174 = 6371 * (1/60 * (Real.pi / 180)) := by
  have hpi := Real.pi_pos
  exact haversine_same_lon 1 174 (1/60) (by positivity) (by linarith)

/-- C3 (amended): in the offline travel estimate, with all four
coordinates present and nonzero, below 1.5 km the plan is a single
walking leg of distance * 12 minutes, and at or above 1.5 km the plan
is walk + bus + walk with min(5, d*2) + d*3 + min(5, d*2) minutes,
which equals d*3 + 10 only once d reaches 2.5 km. -/
theorem offline_plan_distance_policy (a b c d : ℚ)
    (h : ¬(a = 0 ∨ b = 0 ∨ c = 0 ∨ d = 0)) :
    (haversine_distance a b c d < 1.5 →
      offline_travel_plan (some a) (some b) (some c) (some d) =
        ⟨[.WALK], haversine_distance a b c d * 12⟩) ∧
    (1.5 ≤ haversine_distance a b c d →
      offline_travel_plan (some a) (some b) (some c) (some d) =
        ⟨[.WALK, .BUS, .WALK],
          min 5 (haversine_distance a b c d * 2) + haversine_distance a b c d * 3 +
            min 5 (haversine_distance a b c d * 2)⟩) := by
  constructor <;> intro hlt <;> simp only [offline_travel_plan] <;> rw [if_neg h]
  · rw [if_pos hlt]
  · rw [if_neg (not_lt.mpr hlt)]

/-- C3 (counterexample to the claim as stated): at latitudes 1 and
1 + 1/60 degrees on longitude 174 the distance is 6371 * pi / 10800,
which lies at or above 1.5 km, yet the offline estimate is
min(5, d*2) + d*3 + min(5, d*2) = 7d minutes, which differs from
d*3 + 10 (7d = 3d + 10 would force d = 2.5, and here d < 2.5). -/
theorem offline_plan_two_km_counterexample :
    1.5 ≤ haversine_distance 1 174 (1 + 1/60) 174 ∧
    (offline_travel_plan (some 1) (some 174) (some (1 + 1/60)) (some 174)).travel_time_minutes ≠
      haversine_distance 1 174 (1 + 1/60) 174 * 3 + 10 := by
  have hpi3 := Real.pi_gt_d6
  have hpi4 := Real.pi_lt_d6
  have hb1 : (1.5 : ℝ) ≤ 6371 * (1/60 * (Real.pi / 180)) := by nlinarith
  have hb2 : (6371 : ℝ) * (1/60 * (Real.pi / 180)) < 2.5 := by nlinarith
  have hcast : haversine_distance ((1 : ℚ) : ℝ) ((174 : ℚ) : ℝ)
      (((1 + 1/60 : ℚ)) : ℝ) ((174 : ℚ) : ℝ) = 6371 * (1/60 * (Real.pi / 180)) := by
    push_cast
    exact haversine_one_arcminute
  have hplan : offline_travel_plan (some 1) (some 174) (some (1 + 1/60)) (some 174) =
      ⟨[.WALK, .BUS, .WALK],
        min 5 (6371 * (1/60 * (Real.pi / 180)) * 2) + 6371 * (1/60 * (Real.pi / 180)) * 3 +
          min 5 (6371 * (1/60 * (Real.pi / 180)) * 2)⟩ := by
    simp only [offline_travel_plan]
    rw [if_neg (by norm_num : ¬((1 : ℚ) = 0 ∨ (174 : ℚ) = 0 ∨ (1 + 1/60 : ℚ) = 0 ∨ (174 : ℚ) = 0))]
    rw [hcast, if_neg (not_lt.mpr hb1)]
  constructor
  · rw [haversine_one_arcminute]; exact hb1
  · rw [hplan, haversine_one_arcminute]
    have hmin : min (5 : ℝ) (6371 * (1/60 * (Real.pi / 180)) * 2) =
        6371 * (1/60 * (Real.pi / 180)) * 2 := min_eq_right (by nlinarith)
    show min (5 : ℝ) (6371 * (1/60 * (Real.pi / 180)) * 2) +
        6371 * (1/60 * (Real.pi / 180)) * 3 +
        min (5 : ℝ) (6371 * (1/60 * (Real.pi / 180)) * 2) ≠
      6371 * (1/60 * (Real.pi / 180)) * 3 + 10
    rw [hmin]
    intro hcon
    nlinarith

/-- C3 witness: the amended policy applied at the concrete 1-arcminute
pair, whose distance lies at or above 1.5 km. -/
theorem offline_plan_distance_policy_witness :
    offline_travel_plan (some 1) (some 174) (some (1 + 1/60)) (some 174) =
      ⟨[.WALK, .BUS, .WALK],
        min 5 (haversine_distance ((1 : ℚ) : ℝ) ((174 : ℚ) : ℝ)
            (((1 + 1/60 : ℚ)) : ℝ) ((174 : ℚ) : ℝ) * 2) +
          haversine_distance ((1 : ℚ) : ℝ) ((174 : ℚ) : ℝ)
            (((1 + 1/60 : ℚ)) : ℝ) ((174 : ℚ) : ℝ) * 3 +
          min 5 (haversine_distance ((1 : ℚ) : ℝ) ((174 : ℚ) : ℝ)
            (((1 + 1/60 : ℚ)) : ℝ) ((174 : ℚ) : ℝ) * 2)⟩ := by
  apply (offline_plan_distance_policy 1 174 (1 + 1/60) 174 (by norm_num)).2
  have hpi3 := Real.pi_gt_d6
  have hcast : haversine_distance ((1 : ℚ) : ℝ) ((174 : ℚ) : ℝ)
      (((1 + 1/60 : ℚ)) : ℝ) ((174 : ℚ) : ℝ) = 6371 * (1/60 * (Real.pi / 180)) := by
    push_cast
    exact haversine_one_arcminute
  rw [hcast]
  nlinarith
